import Mathlib

/-!
Verification development for the livekit-ffi audio/data bridge
(src/livekit_ffi/src/backend_livekit.rs).

The Rust module is shallowly embedded here: the SPSC sample ring (rtrb)
is a capacity-bounded FIFO list of samples, u64/u32 counters are Nat with
explicit modular wrap where the source wraps, fallible paths return
Except/LkResult, and the external collaborators (the LiveKit room, the
track publish round-trip, the byte-stream write attempts, the state lock)
are Boolean oracles passed in as arguments.
-/

namespace LivekitFfi

/-- Result record returned over the C ABI (LkResult): a code and an
optional message (null pointer modelled as none). -/
structure LkResult where
  code : Int
  message : Option String
deriving DecidableEq, Repr

/-- Mirrors fn ok() in the source: code 0, null message. -/
def ok : LkResult := { code := 0, message := none }

/-- Mirrors fn err(code, msg) in the source. -/
def err (code : Int) (msg : String) : LkResult := { code := code, message := some msg }

/-- Reliability tier of an outbound data message (LkReliability). -/
inductive LkReliability where
  | Reliable
  | Lossy
deriving DecidableEq, Repr

/-- The SPSC sample ring (struct AudioRing): the rtrb producer end is
modelled as the queued sample list (head = oldest) plus the fixed slot
capacity in samples; the underrun/overrun atomics are plain counters. -/
structure AudioRing where
  buf : List Int
  cap : Nat
  underruns : Nat
  overruns : Nat
deriving DecidableEq, Repr

/-- struct AudioPipeline: label, format, ring.  The LiveKit track, source
and worker handles are external collaborators and carry no state the
claims touch. -/
structure AudioPipeline where
  label : String
  sample_rate : Nat
  channels : Nat
  ring : AudioRing
deriving DecidableEq, Repr

/-- The sample-push loop inside AudioPipeline::push: push samples one by
one while the ring has a free slot; on the first failed push stop and
report that something was dropped.  Returns the new ring content and the
dropped flag. -/
def pushSamples (cap : Nat) : List Int → List Int → List Int × Bool
  | buf, [] => (buf, false)
  | buf, s :: rest =>
    if buf.length < cap then pushSamples cap (buf ++ [s]) rest
    else (buf, true)

/-- AudioPipeline::push: reject a batch whose length is not a multiple of
the channel count, otherwise run the push loop and bump the overrun
counter once when the batch was truncated. -/
def AudioPipeline.push (p : AudioPipeline) (data : List Int) : Except String AudioPipeline :=
  if data.length % p.channels ≠ 0 then
    Except.error "pcm payload len is not divisible by channel count"
  else
    let r := pushSamples p.ring.cap p.ring.buf data
    let newOverruns := if r.2 then p.ring.overruns + 1 else p.ring.overruns
    Except.ok { p with ring := { p.ring with buf := r.1, overruns := newOverruns } }

/-- Frame record handed to the audio source (webrtc AudioFrame). -/
structure AudioFrame where
  data : List Int
  sample_rate : Nat
  num_channels : Nat
  samples_per_channel : Nat
deriving DecidableEq, Repr

/-- Outcome of one pacing tick of the worker task. -/
structure TickResult where
  frame : AudioFrame
  queue : List Int
  underruns : Nat
  buf : List Int
deriving DecidableEq, Repr

/-- The pop loop of the worker task: pop from the ring until either the
frame buffer is full (n slots written) or the ring is empty.  Returns the
popped samples in pop order and the remaining ring content. -/
def popLoop (q : List Int) : Nat → List Int × List Int
  | 0 => ([], q)
  | Nat.succ n =>
    match q with
    | [] => ([], [])
    | s :: rest =>
      let r := popLoop rest n
      (s :: r.1, r.2)

/-- One pacing tick of the consumer task spawned in create_audio_pipeline:
pop up to buf.length samples into the frame buffer; on a shortfall zero
the unfilled tail and increment the underrun counter; build the
AudioFrame handed to capture_frame. -/
def workerTick (sample_rate channels safe_channels : Nat) (buf q : List Int)
    (underruns : Nat) : TickResult :=
  let r := popLoop q buf.length
  let popped := r.1
  let q2 := r.2
  let got := popped.length
  let buf1 := popped ++ buf.drop got
  let shortfall := got < buf.length
  let buf2 := if shortfall then buf1.take got ++ List.replicate (buf1.length - got) 0 else buf1
  let u2 := if shortfall then underruns + 1 else underruns
  let samples_per_channel := buf2.length / safe_channels
  { frame := { data := buf2, sample_rate := sample_rate, num_channels := channels,
               samples_per_channel := samples_per_channel },
    queue := q2, underruns := u2, buf := buf2 }

theorem pushSamples_eq (cap : Nat) (data : List Int) :
    ∀ buf : List Int, buf.length ≤ cap →
      pushSamples cap buf data =
        (buf ++ data.take (cap - buf.length), decide (cap - buf.length < data.length)) := by
  induction data with
  | nil =>
    intro buf h
    simp [pushSamples]
  | cons s rest ih =>
    intro buf h
    by_cases hb : buf.length < cap
    · rw [pushSamples, if_pos hb]
      rw [ih (buf ++ [s]) (by simp; omega)]
      rw [Prod.mk.injEq]
      constructor
      · have h1 : cap - buf.length = (cap - (buf ++ [s]).length) + 1 := by simp; omega
        rw [h1]
        simp [List.append_assoc]
      · have hlen : (buf ++ [s]).length = buf.length + 1 := by simp
        rw [hlen, List.length_cons]
        exact decide_eq_decide.mpr (by omega)
    · rw [pushSamples, if_neg hb]
      have hcap : buf.length = cap := by omega
      rw [Prod.mk.injEq]
      constructor
      · simp [hcap]
      · simp only [decide_eq_decide, hcap]
        simp

/-- u64 modulus for the track-id counter (next_audio_track_id wraps as a
u64). -/
def U64_MOD : Nat := 2 ^ 64

/-- struct ClientState, restricted to the fields the audio/registry
operations touch: room presence, the id-to-pipeline map (HashMap as an
association list looked up by first key match), the default track
reference and the id counter. -/
structure ClientState where
  connected : Bool
  audio_tracks : List (Nat × AudioPipeline)
  default_audio_track_id : Option Nat
  next_audio_track_id : Nat
deriving DecidableEq, Repr

/-- lk_client_create, restricted to the modelled fields. -/
def lk_client_create : ClientState :=
  { connected := false, audio_tracks := [], default_audio_track_id := none,
    next_audio_track_id := 1 }

/-- HashMap::insert on the association list: replace the value at an
existing key, else append the binding. -/
def setTrack : List (Nat × AudioPipeline) → Nat → AudioPipeline → List (Nat × AudioPipeline)
  | [], id, p => [(id, p)]
  | (k, v) :: rest, id, p =>
    if k = id then (k, p) :: rest else (k, v) :: setTrack rest id p

/-- fn next_audio_track_id: return the current counter, advance it with
u64 wrap-around, and skip 0 when the wrap lands on it. -/
def next_audio_track_id (g : ClientState) : Nat × ClientState :=
  let id := g.next_audio_track_id
  let n1 := (g.next_audio_track_id + 1) % U64_MOD
  let n2 := if n1 = 0 then 1 else n1
  (id, { g with next_audio_track_id := n2 })

/-- samples_per_10ms in create_audio_pipeline: (sample_rate / 100).max(1). -/
def samples_per_10ms (sample_rate : Nat) : Nat := max (sample_rate / 100) 1

/-- capacity_samples in create_audio_pipeline. -/
def capacity_samples (sample_rate channels buffer_ms : Nat) : Nat :=
  max (max (sample_rate * channels * buffer_ms / 1000) (samples_per_10ms sample_rate * channels)) 1

/-- frame_samples in create_audio_pipeline: ((sample_rate / 100) * channels).max(1),
the per-tick frame size in samples of the pacing task. -/
def frame_samples (sample_rate channels : Nat) : Nat :=
  max (sample_rate / 100 * channels) 1

/-- fn create_audio_pipeline.  The LiveKit publish_track round-trip is an
external collaborator; its outcome is the pubOk oracle.  The returned
pipeline starts with an empty ring of the computed capacity and zeroed
counters. -/
def create_audio_pipeline (g : ClientState) (label : String)
    (sample_rate channels buffer_ms : Nat) (pubOk : Bool) : Except String AudioPipeline :=
  if sample_rate = 0 ∨ channels = 0 then Except.error "invalid audio parameters"
  else
    let bm := min (max buffer_ms 100) 5000
    if g.connected = false then Except.error "not connected"
    else if pubOk = false then Except.error "failed to publish audio track"
    else
      Except.ok
        { label := label, sample_rate := sample_rate, channels := channels,
          ring := { buf := [], cap := capacity_samples sample_rate channels bm,
                    underruns := 0, overruns := 0 } }

/-- fn register_audio_pipeline: allocate an id, build the pipeline,
insert it.  The id counter advance persists even when creation fails,
as in the source. -/
def register_audio_pipeline (g : ClientState) (label : String)
    (sample_rate channels buffer_ms : Nat) (pubOk : Bool) :
    Except String Nat × ClientState :=
  let r := next_audio_track_id g
  let id := r.1
  let g1 := r.2
  match create_audio_pipeline g1 label sample_rate channels buffer_ms pubOk with
  | Except.error e => (Except.error e, g1)
  | Except.ok p =>
    (Except.ok id, { g1 with audio_tracks := setTrack g1.audio_tracks id p })

/-- fn ensure_default_audio_track: an existing default with matching
format is returned unchanged; a format mismatch is a hard error; a stale
or absent default registers a fresh "ue-audio" pipeline with a 1000 ms
buffer and records it as the default. -/
def ensure_default_audio_track (g : ClientState) (sample_rate channels : Nat)
    (pubOk : Bool) : Except String Nat × ClientState :=
  let register : ClientState → Except String Nat × ClientState := fun g0 =>
    match register_audio_pipeline g0 "ue-audio" sample_rate channels 1000 pubOk with
    | (Except.error e, g1) => (Except.error e, g1)
    | (Except.ok id, g1) => (Except.ok id, { g1 with default_audio_track_id := some id })
  match g.default_audio_track_id with
  | some id =>
    match g.audio_tracks.lookup id with
    | some pipeline =>
      if pipeline.sample_rate ≠ sample_rate ∨ pipeline.channels ≠ channels then
        (Except.error "default audio track already configured for a different format", g)
      else
        (Except.ok id, g)
    | none => register { g with default_audio_track_id := none }
  | none => register g

/-- lk_disconnect (null-handle check aside): close the room, clear every
pipeline and the default reference. -/
def lk_disconnect (g : ClientState) : LkResult × ClientState :=
  (ok, { g with connected := false, audio_tracks := [], default_audio_track_id := none })

/-- lk_audio_track_publish_pcm_i16 (null-pointer checks aside): resolve
the handle's track id, take total = frames_per_channel * channels samples
from the caller's memory (modelled as the list pcm) and push them. -/
def lk_audio_track_publish_pcm_i16 (g : ClientState) (track_id : Nat)
    (pcm : List Int) (frames_per_channel : Nat) : LkResult × ClientState :=
  match g.audio_tracks.lookup track_id with
  | none => (err 6 "audio track not found", g)
  | some pipeline =>
    let total := frames_per_channel * pipeline.channels
    let slice := pcm.take total
    match pipeline.push slice with
    | Except.error e => (err 8 ("audio ring push failed: " ++ e), g)
    | Except.ok p2 =>
      (ok, { g with audio_tracks := setTrack g.audio_tracks track_id p2 })

/-- lk_publish_audio_pcm_i16 (null-pointer checks aside): parameter
check, connection check, default-pipeline resolution, then push of
total = frames_per_channel * channels samples. -/
def lk_publish_audio_pcm_i16 (g : ClientState) (pcm : List Int)
    (frames_per_channel : Nat) (channels sample_rate : Int) (pubOk : Bool) :
    LkResult × ClientState :=
  if channels ≤ 0 ∨ sample_rate ≤ 0 then (err 5 "bad params", g)
  else if g.connected = false then (err 6 "not connected", g)
  else
    let ch := channels.toNat
    let sr := sample_rate.toNat
    match ensure_default_audio_track g sr ch pubOk with
    | (Except.error e, g1) => (err 7 ("audio pipeline init failed: " ++ e), g1)
    | (Except.ok track_id, g1) =>
      let total := frames_per_channel * ch
      let slice := pcm.take total
      match g1.audio_tracks.lookup track_id with
      | none => (err 8 "audio pipeline disappeared", g1)
      | some pipeline =>
        match pipeline.push slice with
        | Except.error e => (err 8 ("audio ring push failed: " ++ e), g1)
        | Except.ok p2 =>
          (ok, { g1 with audio_tracks := setTrack g1.audio_tracks track_id p2 })

/-- Default data-channel labels (struct DataLabels). -/
structure DataLabels where
  reliable : String
  lossy : String
deriving DecidableEq, Repr

/-- struct DataStatsCounters: the four atomic counters. -/
structure DataStats where
  reliable_sent_bytes : Int
  reliable_dropped : Int
  lossy_sent_bytes : Int
  lossy_dropped : Int
deriving DecidableEq, Repr

/-- LOSSY_MAX in lk_send_data_ex. -/
def LOSSY_MAX : Nat := 1300

/-- RELIABLE_MAX in lk_send_data_ex: 15 * 1024 = 15360. -/
def RELIABLE_MAX : Nat := 15 * 1024

/-- The downgrade decision in lk_send_data_ex: a Lossy payload over the
lossy limit is switched to the Reliable tier. -/
def effectiveRel (reliability : LkReliability) (len : Nat) : LkReliability :=
  if reliability = LkReliability.Lossy ∧ LOSSY_MAX < len then LkReliability.Reliable
  else reliability

/-- Size ceiling of a tier. -/
def tierLimit : LkReliability → Nat
  | LkReliability.Reliable => RELIABLE_MAX
  | LkReliability.Lossy => LOSSY_MAX

/-- Sent-bytes counter of a tier. -/
def sentBytes (s : DataStats) : LkReliability → Int
  | LkReliability.Reliable => s.reliable_sent_bytes
  | LkReliability.Lossy => s.lossy_sent_bytes

/-- Drop counter of a tier. -/
def droppedCount (s : DataStats) : LkReliability → Int
  | LkReliability.Reliable => s.reliable_dropped
  | LkReliability.Lossy => s.lossy_dropped

/-- Everything lk_send_data_ex produces in the embedding: the C result,
the updated counters, the topic the stream was opened on, how many send
attempts ran (each attempt opens a fresh stream, writes, closes) and the
backoff slept between them. -/
structure SendOutcome where
  result : LkResult
  stats : DataStats
  topic : String
  attempts : Nat
  backoff_ms : Nat
deriving DecidableEq, Repr

/-- lk_send_data_ex (null-pointer checks aside).  The two byte-stream
write attempts are external collaborators modelled by the oracles
attempt1 and attempt2; the source tries once, and on failure sleeps
100 ms and retries exactly once on a fresh stream. -/
def lk_send_data_ex (connected : Bool) (labels : DataLabels) (stats : DataStats)
    (len : Nat) (reliability : LkReliability) (label : Option String)
    (attempt1 attempt2 : Bool) : SendOutcome :=
  if connected = false then
    { result := err 6 "not connected", stats := stats, topic := "", attempts := 0, backoff_ms := 0 }
  else
    let effective_rel := effectiveRel reliability len
    if effective_rel = LkReliability.Lossy ∧ LOSSY_MAX < len then
      { result := err 201 "lossy data size exceeds limit", stats := stats,
        topic := "", attempts := 0, backoff_ms := 0 }
    else if effective_rel = LkReliability.Reliable ∧ RELIABLE_MAX < len then
      { result := err 202 "reliable data size exceeds limit", stats := stats,
        topic := "", attempts := 0, backoff_ms := 0 }
    else
      let topic :=
        match label with
        | some l => l
        | none =>
          match effective_rel with
          | LkReliability.Reliable => labels.reliable
          | LkReliability.Lossy => labels.lossy
      let attempts := if attempt1 then 1 else 2
      let backoff := if attempt1 then 0 else 100
      if attempt1 || attempt2 then
        let stats2 :=
          match effective_rel with
          | LkReliability.Reliable =>
            { stats with reliable_sent_bytes := stats.reliable_sent_bytes + len }
          | LkReliability.Lossy =>
            { stats with lossy_sent_bytes := stats.lossy_sent_bytes + len }
        { result := ok, stats := stats2, topic := topic, attempts := attempts,
          backoff_ms := backoff }
      else
        let stats2 :=
          match effective_rel with
          | LkReliability.Reliable =>
            { stats with reliable_dropped := stats.reliable_dropped + 1 }
          | LkReliability.Lossy =>
            { stats with lossy_dropped := stats.lossy_dropped + 1 }
        { result := err 203 "byte_stream write failed", stats := stats2, topic := topic,
          attempts := attempts, backoff_ms := backoff }

/-- Which data callbacks are registered on the client (the modelled
slots data_cb and data_cb_ex of struct ClientState). -/
structure CallbackTable where
  data_cb : Bool
  data_cb_ex : Bool
deriving DecidableEq, Repr

/-- One synchronous foreign-callback invocation recorded by the
dispatcher model, with the byte buffer it was handed. -/
inductive CbInvocation where
  | plainData (bytes : List Nat)
  | exData (label : String) (reliability : LkReliability) (bytes : List Nat)
deriving DecidableEq, Repr

/-- The ByteStreamOpened arm of the event loop in lk_connect_with_role:
read_all drains the reader to completion (its result is the readAll
oracle; none = read error), the content is copied into one owned buffer,
and under the state lock (lockOk oracle) the plain data callback is
invoked with that buffer if registered.  Returns the invocation list the
arm performs. -/
def onByteStreamOpened (readAll : Option (List Nat)) (lockOk : Bool)
    (cbs : CallbackTable) : List CbInvocation :=
  match readAll with
  | none => []
  | some content =>
    let buf := content
    if lockOk then
      if cbs.data_cb then [CbInvocation.plainData buf] else []
    else []

theorem popLoop_eq (n : Nat) : ∀ q : List Int, popLoop q n = (q.take n, q.drop n) := by
  induction n with
  | zero => intro q; simp [popLoop]
  | succ n ih =>
    intro q
    cases q with
    | nil => simp [popLoop]
    | cons s rest => simp [popLoop, ih rest]

theorem AudioPipeline.push_ok (p : AudioPipeline) (data : List Int)
    (hdiv : data.length % p.channels = 0)
    (hcap : p.ring.buf.length ≤ p.ring.cap) :
    p.push data = Except.ok
      { p with ring :=
        { p.ring with
          buf := p.ring.buf ++ data.take (p.ring.cap - p.ring.buf.length),
          overruns := p.ring.overruns
            + (if p.ring.cap - p.ring.buf.length < data.length then 1 else 0) } } := by
  unfold AudioPipeline.push
  rw [if_neg (by simp [hdiv])]
  rw [pushSamples_eq p.ring.cap data p.ring.buf hcap]
  by_cases h : p.ring.cap - p.ring.buf.length < data.length
  · simp [h]
  · simp [h]

/-- C1: for every batch pushed through AudioPipeline::push (a batch whose
length is a multiple of the channel count, into a ring holding at most
its capacity), the samples preceding the first failed push — exactly the
first cap - occupied samples of the batch — are enqueued in order, the
remainder of the batch is abandoned, and the overrun counter grows by 1
when any sample was dropped and by 0 otherwise, never once per dropped
sample. -/
theorem audio_push_batch_policy (p : AudioPipeline) (data : List Int)
    (hch : 0 < p.channels)
    (hdiv : data.length % p.channels = 0)
    (hcap : p.ring.buf.length ≤ p.ring.cap) :
    ∃ p2, p.push data = Except.ok p2
      ∧ p2.ring.buf = p.ring.buf ++ data.take (p.ring.cap - p.ring.buf.length)
      ∧ p2.ring.overruns =
          p.ring.overruns + (if p.ring.cap - p.ring.buf.length < data.length then 1 else 0)
      ∧ p2.ring.underruns = p.ring.underruns
      ∧ p2.ring.cap = p.ring.cap
      ∧ p2.channels = p.channels ∧ p2.sample_rate = p.sample_rate := by
  rw [p.push_ok data hdiv hcap]
  exact ⟨_, rfl, rfl, rfl, rfl, rfl, rfl, rfl⟩

/-- Concrete run of audio_push_batch_policy: a ring with capacity 4
holding 2 samples receives a 3-sample batch; the first 2 samples are
enqueued, the third is dropped, and the overrun counter grows by exactly
1. -/
def pipeC1 : AudioPipeline :=
  { label := "t", sample_rate := 48000, channels := 1,
    ring := { buf := [1, 2], cap := 4, underruns := 0, overruns := 5 } }

theorem audio_push_batch_policy_witness :
    0 < pipeC1.channels ∧ ([7, 8, 9] : List Int).length % pipeC1.channels = 0
    ∧ pipeC1.ring.buf.length ≤ pipeC1.ring.cap
    ∧ ∃ p2, pipeC1.push [7, 8, 9] = Except.ok p2
      ∧ p2.ring.buf = pipeC1.ring.buf ++ ([7, 8, 9] : List Int).take (pipeC1.ring.cap - pipeC1.ring.buf.length)
      ∧ p2.ring.overruns =
          pipeC1.ring.overruns + (if pipeC1.ring.cap - pipeC1.ring.buf.length < ([7, 8, 9] : List Int).length then 1 else 0)
      ∧ p2.ring.underruns = pipeC1.ring.underruns
      ∧ p2.ring.cap = pipeC1.ring.cap
      ∧ p2.channels = pipeC1.channels ∧ p2.sample_rate = pipeC1.sample_rate :=
  ⟨by decide, by decide, by decide,
    audio_push_batch_policy pipeC1 [7, 8, 9] (by decide) (by decide) (by decide)⟩

theorem workerTick_queue (sr ch sc : Nat) (buf q : List Int) (u : Nat) :
    (workerTick sr ch sc buf q u).queue = q.drop buf.length := by
  unfold workerTick
  simp only [popLoop_eq]

theorem workerTick_underruns (sr ch sc : Nat) (buf q : List Int) (u : Nat) :
    (workerTick sr ch sc buf q u).underruns = if q.length < buf.length then u + 1 else u := by
  unfold workerTick
  simp only [popLoop_eq]
  have hc : (q.take buf.length).length < buf.length ↔ q.length < buf.length := by
    rw [List.length_take]
    omega
  by_cases h : q.length < buf.length
  · rw [if_pos (hc.mpr h), if_pos h]
  · rw [if_neg (fun hh => h (hc.mp hh)), if_neg h]

theorem workerTick_data_short (sr ch sc : Nat) (buf q : List Int) (u : Nat)
    (hlt : q.length < buf.length) :
    (workerTick sr ch sc buf q u).frame.data = q ++ List.replicate (buf.length - q.length) 0 := by
  unfold workerTick
  simp only [popLoop_eq]
  rw [List.take_of_length_le (le_of_lt hlt)]
  rw [if_pos hlt]
  rw [List.take_left]
  congr 2
  rw [List.length_append, List.length_drop]
  omega

theorem workerTick_data_full (sr ch sc : Nat) (buf q : List Int) (u : Nat)
    (hle : buf.length ≤ q.length) :
    (workerTick sr ch sc buf q u).frame.data = q.take buf.length := by
  unfold workerTick
  simp only [popLoop_eq]
  have hgot : (q.take buf.length).length = buf.length := by
    rw [List.length_take]
    omega
  rw [if_neg (by rw [hgot]; omega)]
  rw [hgot, List.drop_length, List.append_nil]

/-- C2: at every pacing tick, the consumer pops samples in FIFO order;
when fewer than one frame's worth is queued the delivered frame is the
popped samples in order followed by zeros and the underrun counter grows
by exactly 1; when a full frame is available the frame is the next
frame-size samples of the queue and the underrun counter is unchanged. -/
theorem worker_tick_underrun_policy (sample_rate channels safe_channels : Nat)
    (buf q : List Int) (underruns : Nat) :
    (workerTick sample_rate channels safe_channels buf q underruns).queue = q.drop buf.length
  ∧ (q.length < buf.length →
      (workerTick sample_rate channels safe_channels buf q underruns).frame.data
          = q ++ List.replicate (buf.length - q.length) 0
      ∧ (workerTick sample_rate channels safe_channels buf q underruns).underruns
          = underruns + 1)
  ∧ (buf.length ≤ q.length →
      (workerTick sample_rate channels safe_channels buf q underruns).frame.data
          = q.take buf.length
      ∧ (workerTick sample_rate channels safe_channels buf q underruns).underruns
          = underruns)
  ∧ (workerTick sample_rate channels safe_channels buf q underruns).frame.data.length
      = buf.length := by
  refine ⟨workerTick_queue .., ?_, ?_, ?_⟩
  · intro hlt
    refine ⟨workerTick_data_short sample_rate channels safe_channels buf q underruns hlt, ?_⟩
    rw [workerTick_underruns, if_pos hlt]
  · intro hle
    refine ⟨workerTick_data_full sample_rate channels safe_channels buf q underruns hle, ?_⟩
    rw [workerTick_underruns, if_neg (by omega)]
  · by_cases hlt : q.length < buf.length
    · rw [workerTick_data_short sample_rate channels safe_channels buf q underruns hlt]
      rw [List.length_append, List.length_replicate]
      omega
    · rw [workerTick_data_full sample_rate channels safe_channels buf q underruns (by omega)]
      rw [List.length_take]
      omega

/-- Concrete runs of worker_tick_underrun_policy: a 4-slot frame over a
queue of 2 samples (underrun: zeros appended, counter bumped) and over a
queue of 5 samples (full frame, counter untouched). -/
theorem worker_tick_underrun_policy_witness :
    (([5, 6] : List Int).length < ([0, 0, 0, 0] : List Int).length
      ∧ (workerTick 48000 1 1 [0, 0, 0, 0] [5, 6] 3).frame.data
          = [5, 6] ++ List.replicate 2 0
      ∧ (workerTick 48000 1 1 [0, 0, 0, 0] [5, 6] 3).underruns = 4)
    ∧ (([0, 0, 0, 0] : List Int).length ≤ ([5, 6, 7, 8, 9] : List Int).length
      ∧ (workerTick 48000 1 1 [0, 0, 0, 0] [5, 6, 7, 8, 9] 3).frame.data
          = ([5, 6, 7, 8, 9] : List Int).take 4
      ∧ (workerTick 48000 1 1 [0, 0, 0, 0] [5, 6, 7, 8, 9] 3).underruns = 3) := by
  constructor
  · refine ⟨by decide, ?_⟩
    have h := (worker_tick_underrun_policy 48000 1 1 [0, 0, 0, 0] [5, 6] 3).2.1 (by decide)
    simpa using h
  · refine ⟨by decide, ?_⟩
    have h := (worker_tick_underrun_policy 48000 1 1 [0, 0, 0, 0] [5, 6, 7, 8, 9] 3).2.2.1 (by decide)
    simpa using h

theorem effectiveRel_lossy_big (len : Nat) (h : LOSSY_MAX < len) :
    effectiveRel LkReliability.Lossy len = LkReliability.Reliable := by
  unfold effectiveRel
  rw [if_pos ⟨rfl, h⟩]

theorem effectiveRel_reliable (len : Nat) :
    effectiveRel LkReliability.Reliable len = LkReliability.Reliable := by
  unfold effectiveRel
  rw [if_neg (by simp)]

/-- C4: a Lossy send whose payload exceeds the 1300-byte lossy limit is
transparently re-routed to the Reliable tier — the call is exactly the
same call with tier Reliable; it fails with the size-exceeded error (code
202) iff the payload exceeds 15360 bytes; and when such a downgraded send
succeeds the reliable sent-bytes counter grows by the payload length
while both lossy counters are unchanged. -/
theorem send_lossy_downgrade (labels : DataLabels) (stats : DataStats) (len : Nat)
    (label : Option String) (attempt1 attempt2 : Bool)
    (hlen : LOSSY_MAX < len) :
    lk_send_data_ex true labels stats len LkReliability.Lossy label attempt1 attempt2
      = lk_send_data_ex true labels stats len LkReliability.Reliable label attempt1 attempt2
  ∧ ((lk_send_data_ex true labels stats len LkReliability.Lossy label attempt1 attempt2).result.code = 202
      ↔ RELIABLE_MAX < len)
  ∧ (len ≤ RELIABLE_MAX → attempt1 = true ∨ attempt2 = true →
      (lk_send_data_ex true labels stats len LkReliability.Lossy label attempt1 attempt2).result.code = 0
    ∧ (lk_send_data_ex true labels stats len LkReliability.Lossy label attempt1 attempt2).stats.reliable_sent_bytes
        = stats.reliable_sent_bytes + len
    ∧ (lk_send_data_ex true labels stats len LkReliability.Lossy label attempt1 attempt2).stats.lossy_sent_bytes
        = stats.lossy_sent_bytes
    ∧ (lk_send_data_ex true labels stats len LkReliability.Lossy label attempt1 attempt2).stats.lossy_dropped
        = stats.lossy_dropped) := by
  have hsame :
      lk_send_data_ex true labels stats len LkReliability.Lossy label attempt1 attempt2
        = lk_send_data_ex true labels stats len LkReliability.Reliable label attempt1 attempt2 := by
    unfold lk_send_data_ex
    rw [effectiveRel_lossy_big len hlen, effectiveRel_reliable len]
  refine ⟨hsame, ?_, ?_⟩
  · rw [hsame]
    unfold lk_send_data_ex
    rw [effectiveRel_reliable len]
    by_cases hbig : RELIABLE_MAX < len
    · simp [hbig, err]
    · cases attempt1 with
      | true => simp [hbig, err, ok]
      | false =>
        cases attempt2 with
        | true => simp [hbig, err, ok]
        | false => simp [hbig, err, ok]
  · intro hsmall hatt
    rw [hsame]
    unfold lk_send_data_ex
    rw [effectiveRel_reliable len]
    have hs : (attempt1 || attempt2) = true := by
      rcases hatt with h | h <;> simp [h]
    simp [Nat.not_lt.mpr hsmall, hs, ok]

/-- Concrete run of send_lossy_downgrade: a 2000-byte Lossy payload with
a successful first attempt is sent as Reliable; code 0 and the reliable
sent-bytes counter grows by 2000. -/
def statsC4 : DataStats :=
  { reliable_sent_bytes := 10, reliable_dropped := 20,
    lossy_sent_bytes := 30, lossy_dropped := 40 }

/-- Default labels as built by DataLabels::default(). -/
def defaultLabels : DataLabels :=
  { reliable := "mocap-bin-reliable", lossy := "mocap-bin-lossy" }

theorem send_lossy_downgrade_witness :
    LOSSY_MAX < 2000
    ∧ (lk_send_data_ex true defaultLabels statsC4 2000 LkReliability.Lossy none true true
        = lk_send_data_ex true defaultLabels statsC4 2000 LkReliability.Reliable none true true
      ∧ ((lk_send_data_ex true defaultLabels statsC4 2000 LkReliability.Lossy none true true).result.code = 202
          ↔ RELIABLE_MAX < 2000)
      ∧ (2000 ≤ RELIABLE_MAX → true = true ∨ true = true →
          (lk_send_data_ex true defaultLabels statsC4 2000 LkReliability.Lossy none true true).result.code = 0
        ∧ (lk_send_data_ex true defaultLabels statsC4 2000 LkReliability.Lossy none true true).stats.reliable_sent_bytes
            = statsC4.reliable_sent_bytes + 2000
        ∧ (lk_send_data_ex true defaultLabels statsC4 2000 LkReliability.Lossy none true true).stats.lossy_sent_bytes
            = statsC4.lossy_sent_bytes
        ∧ (lk_send_data_ex true defaultLabels statsC4 2000 LkReliability.Lossy none true true).stats.lossy_dropped
            = statsC4.lossy_dropped)) :=
  ⟨by decide, send_lossy_downgrade defaultLabels statsC4 2000 none true true (by decide)⟩

/-- C5: when the first write attempt of a size-admissible lk_send_data_ex
call fails, exactly one retry runs (2 attempts total, each on a fresh
stream) after a 100 ms backoff; a successful retry returns code 0 and
adds the payload length to the effective tier's sent-bytes counter
exactly once, leaving every other counter unchanged; two failures return
error 203 and add exactly 1 to the effective tier's drop counter, leaving
every other counter unchanged. -/
theorem send_retry_once (labels : DataLabels) (stats : DataStats) (len : Nat)
    (reliability : LkReliability) (label : Option String) (attempt2 : Bool)
    (hfit : len ≤ tierLimit (effectiveRel reliability len)) :
    (lk_send_data_ex true labels stats len reliability label false attempt2).attempts = 2
  ∧ (lk_send_data_ex true labels stats len reliability label false attempt2).backoff_ms = 100
  ∧ (attempt2 = true →
      (lk_send_data_ex true labels stats len reliability label false attempt2).result.code = 0
    ∧ sentBytes (lk_send_data_ex true labels stats len reliability label false attempt2).stats
          (effectiveRel reliability len)
        = sentBytes stats (effectiveRel reliability len) + len
    ∧ (∀ t, t ≠ effectiveRel reliability len →
        sentBytes (lk_send_data_ex true labels stats len reliability label false attempt2).stats t
          = sentBytes stats t)
    ∧ (∀ t, droppedCount (lk_send_data_ex true labels stats len reliability label false attempt2).stats t
          = droppedCount stats t))
  ∧ (attempt2 = false →
      (lk_send_data_ex true labels stats len reliability label false attempt2).result.code = 203
    ∧ droppedCount (lk_send_data_ex true labels stats len reliability label false attempt2).stats
          (effectiveRel reliability len)
        = droppedCount stats (effectiveRel reliability len) + 1
    ∧ (∀ t, t ≠ effectiveRel reliability len →
        droppedCount (lk_send_data_ex true labels stats len reliability label false attempt2).stats t
          = droppedCount stats t)
    ∧ (∀ t, sentBytes (lk_send_data_ex true labels stats len reliability label false attempt2).stats t
          = sentBytes stats t)) := by
  unfold lk_send_data_ex
  cases he : effectiveRel reliability len with
  | Reliable =>
    rw [he] at hfit
    unfold tierLimit at hfit
    simp only [he]
    cases attempt2 with
    | false =>
      refine ⟨by simp [Nat.not_lt.mpr hfit], by simp [Nat.not_lt.mpr hfit], ?_, ?_⟩
      · intro h; cases h
      · intro _
        refine ⟨by simp [Nat.not_lt.mpr hfit, err], ?_, ?_, ?_⟩
        · simp [Nat.not_lt.mpr hfit, droppedCount]
        · intro t ht
          cases t with
          | Reliable => exact absurd rfl ht
          | Lossy => simp [Nat.not_lt.mpr hfit, droppedCount]
        · intro t
          cases t <;> simp [Nat.not_lt.mpr hfit, sentBytes]
    | true =>
      refine ⟨by simp [Nat.not_lt.mpr hfit], by simp [Nat.not_lt.mpr hfit], ?_, ?_⟩
      · intro _
        refine ⟨by simp [Nat.not_lt.mpr hfit, ok], ?_, ?_, ?_⟩
        · simp [Nat.not_lt.mpr hfit, sentBytes]
        · intro t ht
          cases t with
          | Reliable => exact absurd rfl ht
          | Lossy => simp [Nat.not_lt.mpr hfit, sentBytes]
        · intro t
          cases t <;> simp [Nat.not_lt.mpr hfit, droppedCount]
      · intro h; cases h
  | Lossy =>
    rw [he] at hfit
    unfold tierLimit at hfit
    simp only [he]
    cases attempt2 with
    | false =>
      refine ⟨by simp [Nat.not_lt.mpr hfit], by simp [Nat.not_lt.mpr hfit], ?_, ?_⟩
      · intro h; cases h
      · intro _
        refine ⟨by simp [Nat.not_lt.mpr hfit, err], ?_, ?_, ?_⟩
        · simp [Nat.not_lt.mpr hfit, droppedCount]
        · intro t ht
          cases t with
          | Lossy => exact absurd rfl ht
          | Reliable => simp [Nat.not_lt.mpr hfit, droppedCount]
        · intro t
          cases t <;> simp [Nat.not_lt.mpr hfit, sentBytes]
    | true =>
      refine ⟨by simp [Nat.not_lt.mpr hfit], by simp [Nat.not_lt.mpr hfit], ?_, ?_⟩
      · intro _
        refine ⟨by simp [Nat.not_lt.mpr hfit, ok], ?_, ?_, ?_⟩
        · simp [Nat.not_lt.mpr hfit, sentBytes]
        · intro t ht
          cases t with
          | Lossy => exact absurd rfl ht
          | Reliable => simp [Nat.not_lt.mpr hfit, sentBytes]
        · intro t
          cases t <;> simp [Nat.not_lt.mpr hfit, droppedCount]
      · intro h; cases h

/-- Concrete run of send_retry_once: a 100-byte Lossy send whose first
attempt fails and whose retry succeeds, and one where both attempts
fail. -/
theorem send_retry_once_witness :
    (100 ≤ tierLimit (effectiveRel LkReliability.Lossy 100)
      ∧ (lk_send_data_ex true defaultLabels statsC4 100 LkReliability.Lossy none false true).attempts = 2
      ∧ (lk_send_data_ex true defaultLabels statsC4 100 LkReliability.Lossy none false true).backoff_ms = 100)
    ∧ ((lk_send_data_ex true defaultLabels statsC4 100 LkReliability.Lossy none false true).result.code = 0
      ∧ sentBytes (lk_send_data_ex true defaultLabels statsC4 100 LkReliability.Lossy none false true).stats
            (effectiveRel LkReliability.Lossy 100)
          = sentBytes statsC4 (effectiveRel LkReliability.Lossy 100) + 100)
    ∧ ((lk_send_data_ex true defaultLabels statsC4 100 LkReliability.Lossy none false false).result.code = 203
      ∧ droppedCount (lk_send_data_ex true defaultLabels statsC4 100 LkReliability.Lossy none false false).stats
            (effectiveRel LkReliability.Lossy 100)
          = droppedCount statsC4 (effectiveRel LkReliability.Lossy 100) + 1) := by
  have h1 := send_retry_once defaultLabels statsC4 100 LkReliability.Lossy none true (by decide)
  have h2 := send_retry_once defaultLabels statsC4 100 LkReliability.Lossy none false (by decide)
  refine ⟨⟨by decide, h1.1, h1.2.1⟩, ?_, ?_⟩
  · have h := h1.2.2.1 rfl
    exact ⟨h.1, h.2.1⟩
  · have h := h2.2.2.2 rfl
    exact ⟨h.1, h.2.1⟩

/-- C3: on a client whose default pipeline exists, ensure_default_audio_track
with the default's exact (sample_rate, channels) returns the existing id
with the state untouched (so no new pipeline; a second identical call
returns the same id again), and with any other format returns an error
with the state — the default pipeline and the default reference —
untouched. -/
theorem ensure_default_format_immutable (g : ClientState) (id0 : Nat) (p : AudioPipeline)
    (sample_rate channels : Nat) (pubOk : Bool)
    (hdef : g.default_audio_track_id = some id0)
    (hlook : g.audio_tracks.lookup id0 = some p) :
    (p.sample_rate = sample_rate ∧ p.channels = channels →
      ensure_default_audio_track g sample_rate channels pubOk = (Except.ok id0, g))
  ∧ (¬(p.sample_rate = sample_rate ∧ p.channels = channels) →
      ∃ e, ensure_default_audio_track g sample_rate channels pubOk = (Except.error e, g)) := by
  unfold ensure_default_audio_track
  simp only [hdef]
  simp only [hlook]
  constructor
  · rintro ⟨h1, h2⟩
    rw [if_neg (by simp [h1, h2])]
  · intro h
    rw [if_pos (by tauto)]
    exact ⟨_, rfl⟩

/-- Concrete client for the ensure_default and disconnect runs: connected,
one 48 kHz mono pipeline with id 1 registered as the default. -/
def pipeDefault : AudioPipeline :=
  { label := "ue-audio", sample_rate := 48000, channels := 1,
    ring := { buf := [], cap := 48000, underruns := 0, overruns := 0 } }

def gDefault : ClientState :=
  { connected := true, audio_tracks := [(1, pipeDefault)],
    default_audio_track_id := some 1, next_audio_track_id := 2 }

theorem ensure_default_format_immutable_witness :
    gDefault.default_audio_track_id = some 1
    ∧ gDefault.audio_tracks.lookup 1 = some pipeDefault
    ∧ ((pipeDefault.sample_rate = 48000 ∧ pipeDefault.channels = 1 →
        ensure_default_audio_track gDefault 48000 1 true = (Except.ok 1, gDefault))
      ∧ (¬(pipeDefault.sample_rate = 48000 ∧ pipeDefault.channels = 1) →
        ∃ e, ensure_default_audio_track gDefault 48000 1 true = (Except.error e, gDefault)))
    ∧ ((pipeDefault.sample_rate = 24000 ∧ pipeDefault.channels = 2 →
        ensure_default_audio_track gDefault 24000 2 true = (Except.ok 1, gDefault))
      ∧ (¬(pipeDefault.sample_rate = 24000 ∧ pipeDefault.channels = 2) →
        ∃ e, ensure_default_audio_track gDefault 24000 2 true = (Except.error e, gDefault))) :=
  ⟨by decide, by decide,
    ensure_default_format_immutable gDefault 1 pipeDefault 48000 1 true rfl rfl,
    ensure_default_format_immutable gDefault 1 pipeDefault 24000 2 true rfl rfl⟩

/-- Definition written from the spec's words, for comparison with the
source's frame_samples (C7): the claimed per-tick frame size
max(1, sample_rate / 100) * channels. -/
def spec_frame_samples (sample_rate channels : Nat) : Nat :=
  max 1 (sample_rate / 100) * channels

/-- C7 counterexample: at sample_rate 50, channels 2 the pacing task's
frame size computed in create_audio_pipeline is 1 sample, while the
claimed formula max(1, sample_rate / 100) * channels gives 2 (= channels,
as the claim asserts for sample_rate < 100). -/
theorem frame_samples_claim_counterexample :
    frame_samples 50 2 = 1 ∧ spec_frame_samples 50 2 = 2
      ∧ frame_samples 50 2 ≠ spec_frame_samples 50 2 := by decide

/-- C7 amended: the per-tick frame size is max(1, (sample_rate / 100) *
channels); for sample_rate ≥ 100 (with channels > 0) this coincides with
the claimed max(1, sample_rate / 100) * channels, but for sample_rate <
100 it is 1 sample, not channels. -/
theorem frame_samples_amended (sample_rate channels : Nat) (hch : 0 < channels) :
    (100 ≤ sample_rate →
      frame_samples sample_rate channels = spec_frame_samples sample_rate channels)
  ∧ (sample_rate < 100 → frame_samples sample_rate channels = 1) := by
  constructor
  · intro h
    unfold frame_samples spec_frame_samples
    have h1 : 1 ≤ sample_rate / 100 := by omega
    have h2 : 1 ≤ sample_rate / 100 * channels := Nat.mul_pos h1 hch
    rw [max_eq_left h2, max_eq_right h1]
  · intro h
    unfold frame_samples
    have h0 : sample_rate / 100 = 0 := by omega
    rw [h0]
    simp

theorem frame_samples_amended_witness :
    ((0 : Nat) < 2
      ∧ (100 ≤ 48000 → frame_samples 48000 2 = spec_frame_samples 48000 2)
      ∧ (48000 < 100 → frame_samples 48000 2 = 1))
    ∧ ((0 : Nat) < 2
      ∧ (100 ≤ 50 → frame_samples 50 2 = spec_frame_samples 50 2)
      ∧ (50 < 100 → frame_samples 50 2 = 1)) :=
  ⟨⟨by decide, frame_samples_amended 48000 2 (by decide)⟩,
   ⟨by decide, frame_samples_amended 50 2 (by decide)⟩⟩

/-- C9: the track-id allocator starts at 1 (lk_client_create), returns
the current counter — never the sentinel 0 — and advances by 1, wrapping
the 64-bit counter past the sentinel: after returning 2^64 - 1 the next
counter value is 1, never 0. -/
theorem track_id_never_sentinel (g : ClientState)
    (h1 : 0 < g.next_audio_track_id) (h2 : g.next_audio_track_id < U64_MOD) :
    lk_client_create.next_audio_track_id = 1
  ∧ (next_audio_track_id g).1 = g.next_audio_track_id
  ∧ (next_audio_track_id g).1 ≠ 0
  ∧ 0 < (next_audio_track_id g).2.next_audio_track_id
  ∧ (next_audio_track_id g).2.next_audio_track_id < U64_MOD
  ∧ (g.next_audio_track_id < U64_MOD - 1 →
      (next_audio_track_id g).2.next_audio_track_id = g.next_audio_track_id + 1)
  ∧ (g.next_audio_track_id = U64_MOD - 1 →
      (next_audio_track_id g).2.next_audio_track_id = 1) := by
  have hval : (next_audio_track_id g).2.next_audio_track_id
      = if g.next_audio_track_id = U64_MOD - 1 then 1 else g.next_audio_track_id + 1 := by
    show (if (g.next_audio_track_id + 1) % U64_MOD = 0 then 1
          else (g.next_audio_track_id + 1) % U64_MOD)
        = if g.next_audio_track_id = U64_MOD - 1 then 1 else g.next_audio_track_id + 1
    by_cases h : g.next_audio_track_id = U64_MOD - 1
    · have h0 : (g.next_audio_track_id + 1) % U64_MOD = 0 := by
        simp only [U64_MOD] at h ⊢
        omega
      rw [h0, if_pos rfl, if_pos h]
    · have h0 : (g.next_audio_track_id + 1) % U64_MOD = g.next_audio_track_id + 1 := by
        simp only [U64_MOD] at h h2 ⊢
        omega
      rw [h0, if_neg (by omega), if_neg h]
  have hfst : (next_audio_track_id g).1 = g.next_audio_track_id := rfl
  simp only [U64_MOD] at h2 hval ⊢
  refine ⟨rfl, rfl, ?_, ?_, ?_, ?_, ?_⟩
  · rw [hfst]; omega
  · rw [hval]; split <;> omega
  · rw [hval]; split <;> omega
  · intro h
    rw [hval, if_neg (by omega)]
  · intro h
    rw [hval, if_pos h]

/-- Client state sitting at the last 64-bit id, for the wrap-around run
of track_id_never_sentinel. -/
def gWrap : ClientState :=
  { connected := true, audio_tracks := [], default_audio_track_id := none,
    next_audio_track_id := U64_MOD - 1 }

theorem track_id_never_sentinel_witness :
    0 < gWrap.next_audio_track_id ∧ gWrap.next_audio_track_id < U64_MOD
    ∧ (lk_client_create.next_audio_track_id = 1
      ∧ (next_audio_track_id gWrap).1 = gWrap.next_audio_track_id
      ∧ (next_audio_track_id gWrap).1 ≠ 0
      ∧ 0 < (next_audio_track_id gWrap).2.next_audio_track_id
      ∧ (next_audio_track_id gWrap).2.next_audio_track_id < U64_MOD
      ∧ (gWrap.next_audio_track_id < U64_MOD - 1 →
          (next_audio_track_id gWrap).2.next_audio_track_id = gWrap.next_audio_track_id + 1)
      ∧ (gWrap.next_audio_track_id = U64_MOD - 1 →
          (next_audio_track_id gWrap).2.next_audio_track_id = 1)) :=
  ⟨by norm_num [gWrap, U64_MOD], by norm_num [gWrap, U64_MOD],
    track_id_never_sentinel gWrap (by norm_num [gWrap, U64_MOD]) (by norm_num [gWrap, U64_MOD])⟩

theorem lookup_setTrack_self (m : List (Nat × AudioPipeline)) (id : Nat) (p : AudioPipeline) :
    (setTrack m id p).lookup id = some p := by
  induction m with
  | nil => simp [setTrack, List.lookup]
  | cons kv rest ih =>
    obtain ⟨k, v⟩ := kv
    by_cases h : k = id
    · simp [setTrack, h, List.lookup]
    · have hne : (id == k) = false := by
        simp [Ne.symm h]
      simp [setTrack, h, List.lookup, hne, ih]

theorem ensure_default_matching (g : ClientState) (id0 : Nat) (p : AudioPipeline) (pubOk : Bool)
    (hdef : g.default_audio_track_id = some id0)
    (hlook : g.audio_tracks.lookup id0 = some p) :
    ensure_default_audio_track g p.sample_rate p.channels pubOk = (Except.ok id0, g) := by
  unfold ensure_default_audio_track
  simp only [hdef]
  simp only [hlook]
  rw [if_neg (by simp)]

/-- C6 counterexample: on a connected client with one registered track
(id 1, also the default), lk_disconnect followed by the track-handle push
lk_audio_track_publish_pcm_i16 reports code 6 with message "audio track
not found" — not the "not connected" message the claim asserts for both
push entry points. -/
theorem disconnect_push_message_counterexample :
    (lk_audio_track_publish_pcm_i16 (lk_disconnect gDefault).2 1 [0] 1).1
        = err 6 "audio track not found"
    ∧ (lk_audio_track_publish_pcm_i16 (lk_disconnect gDefault).2 1 [0] 1).1.message
        ≠ some "not connected" := by
  constructor
  · rfl
  · decide

/-- C6 amended: after lk_disconnect the connection handle is cleared, the
pipeline map is empty and the default reference is cleared; a
pipeline-targeted push issued immediately afterwards fails with the
state-error code 6 and writes no samples (the state is returned
untouched) — lk_publish_audio_pcm_i16 with message "not connected",
lk_audio_track_publish_pcm_i16 with message "audio track not found"
because its pipeline was cleared with the rest. -/
theorem disconnect_clears_and_rejects (g : ClientState) (pcm : List Int)
    (frames_per_channel track_id : Nat) (channels sample_rate : Int) (pubOk : Bool)
    (hch : 0 < channels) (hsr : 0 < sample_rate) :
    (lk_disconnect g).2.connected = false
  ∧ (lk_disconnect g).2.audio_tracks = []
  ∧ (lk_disconnect g).2.default_audio_track_id = none
  ∧ lk_publish_audio_pcm_i16 (lk_disconnect g).2 pcm frames_per_channel channels sample_rate pubOk
      = (err 6 "not connected", (lk_disconnect g).2)
  ∧ lk_audio_track_publish_pcm_i16 (lk_disconnect g).2 track_id pcm frames_per_channel
      = (err 6 "audio track not found", (lk_disconnect g).2) := by
  refine ⟨rfl, rfl, rfl, ?_, ?_⟩
  · unfold lk_publish_audio_pcm_i16
    rw [if_neg (by push_neg; exact ⟨hch, hsr⟩)]
    rw [if_pos (show (lk_disconnect g).2.connected = false from rfl)]
  · rfl

theorem disconnect_clears_and_rejects_witness :
    (0 : Int) < 1 ∧ (0 : Int) < 48000
    ∧ ((lk_disconnect gDefault).2.connected = false
      ∧ (lk_disconnect gDefault).2.audio_tracks = []
      ∧ (lk_disconnect gDefault).2.default_audio_track_id = none
      ∧ lk_publish_audio_pcm_i16 (lk_disconnect gDefault).2 [0] 1 1 48000 true
          = (err 6 "not connected", (lk_disconnect gDefault).2)
      ∧ lk_audio_track_publish_pcm_i16 (lk_disconnect gDefault).2 7 [0] 1
          = (err 6 "audio track not found", (lk_disconnect gDefault).2)) :=
  ⟨by decide, by decide,
    disconnect_clears_and_rejects gDefault [0] 1 7 1 48000 true (by decide) (by decide)⟩

/-- C8 counterexample: with only the extended data callback registered
(and the state lock available), the ByteStreamOpened handler performs no
callback invocation at all — the extended callback is not invoked even
though it is registered, contrary to the claim. -/
theorem byte_stream_ex_callback_counterexample :
    ({ data_cb := false, data_cb_ex := true } : CallbackTable).data_cb_ex = true
    ∧ onByteStreamOpened (some [1, 2, 3]) true { data_cb := false, data_cb_ex := true } = [] :=
  ⟨rfl, rfl⟩

/-- C8 amended: on a byte-stream-opened event the reader is drained to
completion into one owned buffer and, under the state lock, the plain
data callback is invoked synchronously with the full buffer if
registered; the extended data callback is never invoked by this handler,
even when registered. -/
theorem byte_stream_opened_dispatch (content : List Nat) (lockOk : Bool) (cbs : CallbackTable) :
    onByteStreamOpened (some content) lockOk cbs
        = (if lockOk = true ∧ cbs.data_cb = true then [CbInvocation.plainData content] else [])
  ∧ (∀ l r b, CbInvocation.exData l r b ∉ onByteStreamOpened (some content) lockOk cbs) := by
  constructor
  · cases lockOk with
    | false => simp [onByteStreamOpened]
    | true =>
      cases hcb : cbs.data_cb with
      | false => simp [onByteStreamOpened, hcb]
      | true => simp [onByteStreamOpened, hcb]
  · intro l r b
    cases lockOk with
    | false => simp [onByteStreamOpened]
    | true =>
      cases hcb : cbs.data_cb with
      | false => simp [onByteStreamOpened, hcb]
      | true => simp [onByteStreamOpened, hcb]

theorem byte_stream_opened_dispatch_witness :
    onByteStreamOpened (some [4, 5]) true { data_cb := true, data_cb_ex := true }
        = (if true = true ∧ ({ data_cb := true, data_cb_ex := true } : CallbackTable).data_cb = true
            then [CbInvocation.plainData [4, 5]] else [])
    ∧ (∀ l r b, CbInvocation.exData l r b
        ∉ onByteStreamOpened (some [4, 5]) true { data_cb := true, data_cb_ex := true }) :=
  byte_stream_opened_dispatch [4, 5] true { data_cb := true, data_cb_ex := true }

/-- C10: a push on an existing pipeline of a connected client returns
code 0 (ok) regardless of ring occupancy — including a full ring that
drops part or all of the batch — through lk_audio_track_publish_pcm_i16
and, when the pipeline is the matching default, lk_publish_audio_pcm_i16;
overflow is never surfaced as an error and is observable only through the
pipeline's overrun counter. -/
theorem push_overflow_not_an_error (g : ClientState) (track_id : Nat) (p : AudioPipeline)
    (pcm : List Int) (frames_per_channel : Nat) (pubOk : Bool)
    (hconn : g.connected = true)
    (hlook : g.audio_tracks.lookup track_id = some p)
    (hch : 0 < p.channels)
    (hsr : 0 < p.sample_rate)
    (hcap : p.ring.buf.length ≤ p.ring.cap)
    (hlen : frames_per_channel * p.channels ≤ pcm.length) :
    (lk_audio_track_publish_pcm_i16 g track_id pcm frames_per_channel).1 = ok
  ∧ (∃ p2, (lk_audio_track_publish_pcm_i16 g track_id pcm frames_per_channel).2.audio_tracks.lookup track_id
        = some p2
      ∧ p2.ring.overruns = p.ring.overruns
          + (if p.ring.cap - p.ring.buf.length < frames_per_channel * p.channels then 1 else 0))
  ∧ (g.default_audio_track_id = some track_id →
      (lk_publish_audio_pcm_i16 g pcm frames_per_channel (p.channels : Int) (p.sample_rate : Int) pubOk).1
        = ok) := by
  have hslice : (pcm.take (frames_per_channel * p.channels)).length = frames_per_channel * p.channels := by
    rw [List.length_take]
    omega
  have hdiv : (pcm.take (frames_per_channel * p.channels)).length % p.channels = 0 := by
    rw [hslice]
    exact Nat.mul_mod_left frames_per_channel p.channels
  have hpush := p.push_ok (pcm.take (frames_per_channel * p.channels)) hdiv hcap
  have htrack : ∃ p2,
      p.push (pcm.take (frames_per_channel * p.channels)) = Except.ok p2
      ∧ lk_audio_track_publish_pcm_i16 g track_id pcm frames_per_channel
          = (ok, { g with audio_tracks := setTrack g.audio_tracks track_id p2 })
      ∧ p2.ring.overruns = p.ring.overruns
          + (if p.ring.cap - p.ring.buf.length < frames_per_channel * p.channels then 1 else 0) := by
    refine ⟨_, hpush, ?_, ?_⟩
    · unfold lk_audio_track_publish_pcm_i16
      simp only [hlook]
      rw [hpush]
    · show p.ring.overruns
          + (if p.ring.cap - p.ring.buf.length
                < (pcm.take (frames_per_channel * p.channels)).length then 1 else 0)
          = p.ring.overruns
          + (if p.ring.cap - p.ring.buf.length < frames_per_channel * p.channels then 1 else 0)
      rw [hslice]
  obtain ⟨p2, hp2, heq, hov⟩ := htrack
  refine ⟨?_, ?_, ?_⟩
  · rw [heq]
  · rw [heq]
    exact ⟨p2, lookup_setTrack_self g.audio_tracks track_id p2, hov⟩
  · intro hdef
    unfold lk_publish_audio_pcm_i16
    rw [if_neg (by push_neg; exact ⟨Int.natCast_pos.mpr hch, Int.natCast_pos.mpr hsr⟩)]
    rw [if_neg (by simp [hconn])]
    have hens := ensure_default_matching g track_id p pubOk hdef hlook
    simp only [Int.toNat_natCast]
    simp only [hens]
    simp only [hlook]
    rw [hp2]

/-- Concrete run of push_overflow_not_an_error: a completely full ring
(2 samples queued, capacity 2) that drops the whole 2-sample batch still
returns ok on both push entry points, and the overrun counter records the
drop. -/
def pipeFull : AudioPipeline :=
  { label := "ue-audio", sample_rate := 48000, channels := 1,
    ring := { buf := [3, 4], cap := 2, underruns := 0, overruns := 0 } }

def gFull : ClientState :=
  { connected := true, audio_tracks := [(1, pipeFull)],
    default_audio_track_id := some 1, next_audio_track_id := 2 }

theorem push_overflow_not_an_error_witness :
    gFull.connected = true ∧ gFull.audio_tracks.lookup 1 = some pipeFull
    ∧ 0 < pipeFull.channels ∧ 0 < pipeFull.sample_rate
    ∧ pipeFull.ring.buf.length ≤ pipeFull.ring.cap
    ∧ 2 * pipeFull.channels ≤ ([8, 9] : List Int).length
    ∧ ((lk_audio_track_publish_pcm_i16 gFull 1 [8, 9] 2).1 = ok
      ∧ (∃ p2, (lk_audio_track_publish_pcm_i16 gFull 1 [8, 9] 2).2.audio_tracks.lookup 1 = some p2
          ∧ p2.ring.overruns = pipeFull.ring.overruns
              + (if pipeFull.ring.cap - pipeFull.ring.buf.length < 2 * pipeFull.channels then 1 else 0))
      ∧ (gFull.default_audio_track_id = some 1 →
          (lk_publish_audio_pcm_i16 gFull [8, 9] 2 (pipeFull.channels : Int)
              (pipeFull.sample_rate : Int) true).1 = ok)) :=
  ⟨rfl, by decide, by decide, by decide, by decide, by decide,
    push_overflow_not_an_error gFull 1 pipeFull [8, 9] 2 true rfl (by decide) (by decide)
      (by decide) (by decide) (by decide)⟩

end LivekitFfi
